import Mathlib

/-
Verification of the data-access layer of a social/chat client
(services/firebaseService.ts).  The remote document store is modelled as a
record of collections, each an association list from an opaque document id
to a typed document.  Every exported operation of the service file is
translated as a pure function on that store; asynchronous operations that
can throw return an `Except` result together with the (possibly updated)
store.  Server-assigned timestamps are modelled by a logical clock `time`
that advances on every insertion, and `addDoc`'s fresh document id by a
`nextId` counter.
-/

namespace GlobalChat

-- Document ids are opaque store-assigned identifiers; we model them as
-- naturals handed out by the store's `nextId` counter.
abbrev DocId := Nat

/-
JavaScript string helpers used by the validators: `''.trim()` removes
leading and trailing whitespace, and a string is falsy exactly when it is
empty, so `!s?.trim()` holds when the field is absent or all-whitespace.
-/

def isJsWhitespace (c : Char) : Bool :=
  c == ' ' || c == '\t' || c == '\n' || c == '\r' || c == '\x0b' || c == '\x0c'

def jsTrim (s : String) : String :=
  String.mk (((s.toList.dropWhile isJsWhitespace).reverse.dropWhile isJsWhitespace).reverse)

/-
Validation functions.  Each takes a partial payload (absent fields are
`none`, mirroring `Partial<T>` with `undefined` members) and returns the
human-readable error strings in the order the source pushes them.
-/

structure ProfileFields where
  displayName : Option String
  bio : Option String
  deriving Repr, DecidableEq

def validateUserProfile (profile : ProfileFields) : List String :=
  (match profile.displayName with
   | none => ["Display name is required"]
   | some n =>
     if jsTrim n = "" then ["Display name is required"]
     else if n.length < 2 then ["Display name must be at least 2 characters"]
     else if n.length > 50 then ["Display name must be less than 50 characters"]
     else [])
  ++
  (match profile.bio with
   | none => []
   | some b => if b ≠ "" && b.length > 500 then ["Bio must be less than 500 characters"] else [])

structure PostFields where
  title : Option String
  content : Option String
  deriving Repr, DecidableEq

def validatePost (post : PostFields) : List String :=
  (match post.title with
   | none => ["Title is required"]
   | some t =>
     if jsTrim t = "" then ["Title is required"]
     else if t.length < 3 then ["Title must be at least 3 characters"]
     else if t.length > 100 then ["Title must be less than 100 characters"]
     else [])
  ++
  (match post.content with
   | none => ["Content is required"]
   | some c =>
     if jsTrim c = "" then ["Content is required"]
     else if c.length < 10 then ["Content must be at least 10 characters"]
     else if c.length > 2000 then ["Content must be less than 2000 characters"]
     else [])

structure CommentFields where
  content : Option String
  deriving Repr, DecidableEq

def validateComment (comment : CommentFields) : List String :=
  match comment.content with
  | none => ["Comment content is required"]
  | some c =>
    if jsTrim c = "" then ["Comment content is required"]
    else if c.length < 1 then ["Comment must have content"]
    else if c.length > 500 then ["Comment must be less than 500 characters"]
    else []

structure GroupFields where
  name : Option String
  description : Option String
  deriving Repr, DecidableEq

def validateGroup (group : GroupFields) : List String :=
  (match group.name with
   | none => ["Group name is required"]
   | some n =>
     if jsTrim n = "" then ["Group name is required"]
     else if n.length < 3 then ["Group name must be at least 3 characters"]
     else if n.length > 50 then ["Group name must be less than 50 characters"]
     else [])
  ++
  (match group.description with
   | none => ["Group description is required"]
   | some d =>
     if jsTrim d = "" then ["Group description is required"]
     else if d.length > 500 then ["Group description must be less than 500 characters"]
     else [])

structure EventFields where
  title : Option String
  description : Option String
  startDate : Option Int
  endDate : Option Int
  deriving Repr, DecidableEq

def validateEvent (event : EventFields) : List String :=
  (match event.title with
   | none => ["Event title is required"]
   | some t =>
     if jsTrim t = "" then ["Event title is required"]
     else if t.length < 3 then ["Event title must be at least 3 characters"]
     else if t.length > 100 then ["Event title must be less than 100 characters"]
     else [])
  ++
  (match event.description with
   | none => ["Event description is required"]
   | some d =>
     if jsTrim d = "" then ["Event description is required"]
     else if d.length > 1000 then ["Event description must be less than 1000 characters"]
     else [])
  ++
  (match event.startDate, event.endDate with
   | some sd, some ed => if sd ≥ ed then ["End date must be after start date"] else []
   | _, _ => [])

/-
Avatar placeholder (`generateAvatarPlaceholder`): builds a small SVG data
URI whose payload is base64-encoded with `btoa`.  `btoa` encodes the
string's character codes (latin-1) with the standard base64 alphabet.
-/

def base64Alphabet : List Char :=
  "ABCDEFGHIJKLMNOPQRSTUVWXYZabcdefghijklmnopqrstuvwxyz0123456789+/".toList

def base64Digit (n : Nat) : Char := base64Alphabet.getD n 'A'

def base64Chunks : List Nat → List Char
  | [] => []
  | [a] => [base64Digit (a / 4), base64Digit (a % 4 * 16), '=', '=']
  | [a, b] => [base64Digit (a / 4), base64Digit (a % 4 * 16 + b / 16),
               base64Digit (b % 16 * 4), '=']
  | a :: b :: c :: rest =>
      base64Digit (a / 4) :: base64Digit (a % 4 * 16 + b / 16) ::
      base64Digit (b % 16 * 4 + c / 64) :: base64Digit (c % 64) :: base64Chunks rest

def btoa (s : String) : String :=
  String.mk (base64Chunks (s.toList.map Char.toNat))

def avatarColors : List String :=
  ["#6200ee", "#03dac6", "#ff5722", "#4caf50", "#ff9800", "#e91e63"]

def avatarSvg (color initials : String) : String :=
  "\n    <svg width=\"100\" height=\"100\" xmlns=\"http://www.w3.org/2000/svg\">\n      <circle cx=\"50\" cy=\"50\" r=\"50\" fill=\"" ++ color ++
  "\"/>\n      <text x=\"50\" y=\"60\" font-family=\"Arial\" font-size=\"30\" fill=\"white\" text-anchor=\"middle\">" ++ initials ++
  "</text>\n    </svg>\n  "

def generateAvatarPlaceholder (name : String) : String :=
  let initials := (String.mk (name.toList.take 2)).toUpper
  let colorIndex := name.length % avatarColors.length
  let color := avatarColors.getD colorIndex ""
  "data:image/svg+xml;base64," ++ btoa (avatarSvg color initials)

/-
Typed documents, one per collection used by the verified operations.
Counts are JS numbers, modelled as `Int` with the source's explicit
`Math.max(0, _)` floors.  Optional source fields are `Option`s.
-/

structure UserProfileDoc where
  uid : String
  displayName : String
  email : String
  bio : Option String
  profilePicture : String
  createdAt : Nat
  updatedAt : Nat
  deriving Repr, DecidableEq

structure PostDoc where
  userId : String
  userName : String
  userAvatar : Option String
  title : String
  content : String
  imageData : Option String
  likesCount : Int
  commentsCount : Int
  createdAt : Nat
  updatedAt : Nat
  deriving Repr, DecidableEq

structure CommentDoc where
  postId : DocId
  userId : String
  userName : String
  userAvatar : Option String
  content : String
  createdAt : Nat
  updatedAt : Nat
  deriving Repr, DecidableEq

structure LikeDoc where
  postId : DocId
  userId : String
  userName : String
  createdAt : Nat
  deriving Repr, DecidableEq

structure GroupDoc where
  name : String
  description : String
  createdBy : String
  creatorName : String
  memberCount : Int
  isPrivate : Bool
  imageData : Option String
  createdAt : Nat
  updatedAt : Nat
  deriving Repr, DecidableEq

inductive MemberRole where
  | admin
  | moderator
  | member
  deriving Repr, DecidableEq

structure GroupMemberDoc where
  groupId : DocId
  userId : String
  userName : String
  role : MemberRole
  joinedAt : Nat
  deriving Repr, DecidableEq

structure EventDoc where
  title : String
  description : String
  createdBy : String
  creatorName : String
  groupId : Option DocId
  startDate : Int
  endDate : Int
  location : Option String
  maxParticipants : Option Int
  currentParticipants : Int
  isPublic : Bool
  createdAt : Nat
  updatedAt : Nat
  deriving Repr, DecidableEq

inductive ParticipantStatus where
  | going
  | maybe
  | notGoing
  deriving Repr, DecidableEq

structure EventParticipantDoc where
  eventId : DocId
  userId : String
  userName : String
  status : ParticipantStatus
  joinedAt : Nat
  deriving Repr, DecidableEq

/-
The document store: one association list per collection (insertion order,
as the store enumerates unordered query results), a fresh-id counter for
`addDoc` and a logical clock for `serverTimestamp()`.
-/

structure Store where
  nextId : DocId
  time : Nat
  userProfiles : List (DocId × UserProfileDoc)
  posts : List (DocId × PostDoc)
  comments : List (DocId × CommentDoc)
  likes : List (DocId × LikeDoc)
  groups : List (DocId × GroupDoc)
  groupMembers : List (DocId × GroupMemberDoc)
  events : List (DocId × EventDoc)
  eventParticipants : List (DocId × EventParticipantDoc)
  deriving Repr, DecidableEq

-- `getDoc`: the document with the given id, if any.
def findDoc {α : Type} (l : List (DocId × α)) (i : DocId) : Option α :=
  (l.find? (fun d => d.1 == i)).map Prod.snd

-- `updateDoc` with a field patch: replace the document stored under `i`.
def updateDocL {α : Type} (l : List (DocId × α)) (i : DocId) (f : α → α) :
    List (DocId × α) :=
  l.map (fun d => if d.1 == i then (d.1, f d.2) else d)

-- `deleteDoc` on a document reference: drop the document with that id.
def deleteDocL {α : Type} (l : List (DocId × α)) (i : DocId) : List (DocId × α) :=
  l.filter (fun d => !(d.1 == i))

/-
Create payloads: `Omit<T, 'id' | counters | timestamps>` of each entity.
-/

structure UserProfileInput where
  uid : String
  displayName : String
  email : String
  bio : Option String
  profilePicture : Option String
  deriving Repr, DecidableEq

structure PostInput where
  userId : String
  userName : String
  userAvatar : Option String
  title : String
  content : String
  imageData : Option String
  deriving Repr, DecidableEq

structure CommentInput where
  postId : DocId
  userId : String
  userName : String
  userAvatar : Option String
  content : String
  deriving Repr, DecidableEq

structure GroupInput where
  name : String
  description : String
  createdBy : String
  creatorName : String
  isPrivate : Bool
  imageData : Option String
  deriving Repr, DecidableEq

structure EventInput where
  title : String
  description : String
  createdBy : String
  creatorName : String
  groupId : Option DocId
  startDate : Int
  endDate : Int
  location : Option String
  maxParticipants : Option Int
  isPublic : Bool
  deriving Repr, DecidableEq

-- Full create payloads seen through `Partial<T>` by the validators.
def UserProfileInput.fields (p : UserProfileInput) : ProfileFields :=
  { displayName := some p.displayName, bio := p.bio }

def PostInput.fields (p : PostInput) : PostFields :=
  { title := some p.title, content := some p.content }

def CommentInput.fields (c : CommentInput) : CommentFields :=
  { content := some c.content }

def GroupInput.fields (g : GroupInput) : GroupFields :=
  { name := some g.name, description := some g.description }

def EventInput.fields (e : EventInput) : EventFields :=
  { title := some e.title, description := some e.description,
    startDate := some e.startDate, endDate := some e.endDate }

/-
The repeated read-modify-write snippet on a parent post's counter:
`getDoc(postRef)`, and only if the document exists, `updateDoc` setting the
counter field to a function of the value just read (`data().count || 0`,
which on an `Int`-valued present field is the identity).
-/

def setPostLikesCount (s : Store) (postId : DocId) (v : Int → Int) : Store :=
  match findDoc s.posts postId with
  | some p => { s with posts := updateDocL s.posts postId (fun q => { q with likesCount := v p.likesCount }) }
  | none => s

def setPostCommentsCount (s : Store) (postId : DocId) (v : Int → Int) : Store :=
  match findDoc s.posts postId with
  | some p => { s with posts := updateDocL s.posts postId (fun q => { q with commentsCount := v p.commentsCount }) }
  | none => s

/-
User profile CRUD (`createUserProfile`): validate, then write the payload
with `profilePicture || generateAvatarPlaceholder(displayName)` (an empty
string is falsy in JS, hence also replaced) and server timestamps.
-/

def createUserProfile (s : Store) (profileData : UserProfileInput) :
    Except String DocId × Store :=
  let errors := validateUserProfile profileData.fields
  if errors.length > 0 then
    (Except.error (String.intercalate ", " errors), s)
  else
    let profilePicture :=
      match profileData.profilePicture with
      | some pic => if pic = "" then generateAvatarPlaceholder profileData.displayName else pic
      | none => generateAvatarPlaceholder profileData.displayName
    let docData : UserProfileDoc :=
      { uid := profileData.uid, displayName := profileData.displayName,
        email := profileData.email, bio := profileData.bio,
        profilePicture := profilePicture, createdAt := s.time, updatedAt := s.time }
    (Except.ok s.nextId,
     { s with userProfiles := s.userProfiles ++ [(s.nextId, docData)],
              nextId := s.nextId + 1, time := s.time + 1 })

/-
Posts CRUD (`createPost`): validate, then write required fields with the
counters initialised to 0, adding `userAvatar`/`imageData` only when the
input carries them.
-/

def createPost (s : Store) (postData : PostInput) : Except String DocId × Store :=
  let errors := validatePost postData.fields
  if errors.length > 0 then
    (Except.error (String.intercalate ", " errors), s)
  else
    let docData : PostDoc :=
      { userId := postData.userId, userName := postData.userName,
        userAvatar := postData.userAvatar,
        title := postData.title, content := postData.content,
        imageData := postData.imageData,
        likesCount := 0, commentsCount := 0,
        createdAt := s.time, updatedAt := s.time }
    (Except.ok s.nextId,
     { s with posts := s.posts ++ [(s.nextId, docData)],
              nextId := s.nextId + 1, time := s.time + 1 })

/-
Comments CRUD.  `createComment` validates, inserts the comment, then does
the read-modify-write increment of the parent post's `commentsCount` —
skipped silently when the parent post document does not exist.
-/

def createComment (s : Store) (commentData : CommentInput) :
    Except String DocId × Store :=
  let errors := validateComment commentData.fields
  if errors.length > 0 then
    (Except.error (String.intercalate ", " errors), s)
  else
    let docData : CommentDoc :=
      { postId := commentData.postId, userId := commentData.userId,
        userName := commentData.userName, userAvatar := commentData.userAvatar,
        content := commentData.content, createdAt := s.time, updatedAt := s.time }
    let s1 := { s with comments := s.comments ++ [(s.nextId, docData)],
                       nextId := s.nextId + 1, time := s.time + 1 }
    (Except.ok s.nextId, setPostCommentsCount s1 commentData.postId (fun c => c + 1))

/-
Typed record returned by `getComments` / delivered by
`subscribeToComments`: the raw document plus its id.
-/

structure CommentRec where
  id : DocId
  postId : DocId
  userId : String
  userName : String
  userAvatar : Option String
  content : String
  createdAt : Nat
  updatedAt : Nat
  deriving Repr, DecidableEq

def commentFromDoc (i : DocId) (d : CommentDoc) : CommentRec :=
  { id := i, postId := d.postId, userId := d.userId, userName := d.userName,
    userAvatar := d.userAvatar, content := d.content,
    createdAt := d.createdAt, updatedAt := d.updatedAt }

-- Client-side comparator `(a, b) => a.createdAt.getTime() - b.createdAt.getTime()`.
def commentOrder (a b : CommentRec) : Prop := a.createdAt ≤ b.createdAt

instance : DecidableRel commentOrder :=
  fun a b => inferInstanceAs (Decidable (a.createdAt ≤ b.createdAt))

instance : IsTotal CommentRec commentOrder :=
  ⟨fun a b => Nat.le_total a.createdAt b.createdAt⟩

instance : IsTrans CommentRec commentOrder :=
  ⟨fun _ _ _ hab hbc => Nat.le_trans hab hbc⟩

/-
`getComments`: a filter-only query (`where('postId','==',postId)`, no
`orderBy`, so no composite index), mapped to typed records and sorted
client-side by creation time ascending.  JavaScript's `Array.sort` is a
stable comparison sort, modelled by the stable `List.insertionSort`.
-/

def getComments (s : Store) (postId : DocId) : List CommentRec :=
  let docs := s.comments.filter (fun d => d.2.postId == postId)
  let comments := docs.map (fun d => commentFromDoc d.1 d.2)
  List.insertionSort commentOrder comments

/-
`subscribeToComments`: the snapshot handler receives the current matching
set of the same filter-only query and applies the same mapping and
client-side sort before invoking the callback.  This function is the value
the callback is invoked with when the store delivers the snapshot `s`.
-/

def subscribeToCommentsSnapshot (s : Store) (postId : DocId) : List CommentRec :=
  let docs := s.comments.filter (fun d => d.2.postId == postId)
  let comments := docs.map (fun d => commentFromDoc d.1 d.2)
  List.insertionSort commentOrder comments

/-
`deleteComment`: delete the comment document, then read-modify-write the
parent post's `commentsCount` down by one with an explicit floor at 0
(`Math.max(0, currentCount - 1)`), skipped when the post is absent.
-/

def deleteComment (s : Store) (commentId : DocId) (postId : DocId) : Store :=
  let s1 := { s with comments := deleteDocL s.comments commentId }
  setPostCommentsCount s1 postId (fun c => max 0 (c - 1))

/-
`deletePost`: query and delete every comment referencing the post, then
every like referencing it, then the post document itself.  The returned
trace records each issued delete in program order.
-/

inductive DeleteOp where
  | delComment (i : DocId)
  | delLike (i : DocId)
  | delPost (i : DocId)
  deriving Repr, DecidableEq

def deletePost (s : Store) (postId : DocId) : Store × List DeleteOp :=
  let commentDocs := s.comments.filter (fun d => d.2.postId == postId)
  let s1 := { s with comments := s.comments.filter (fun d => !(d.2.postId == postId)) }
  let likeDocs := s1.likes.filter (fun d => d.2.postId == postId)
  let s2 := { s1 with likes := s1.likes.filter (fun d => !(d.2.postId == postId)) }
  let s3 := { s2 with posts := deleteDocL s2.posts postId }
  (s3,
   commentDocs.map (fun d => DeleteOp.delComment d.1)
     ++ likeDocs.map (fun d => DeleteOp.delLike d.1)
     ++ [DeleteOp.delPost postId])

/-
Likes.  `toggleLike` queries the like by `(postId, userId)`; when absent it
inserts one and increments the post's `likesCount`, returning `true`; when
present it deletes the first matching document and decrements with a floor
at 0, returning `false`.
-/

def likeForPair (postId : DocId) (userId : String) (d : DocId × LikeDoc) : Bool :=
  d.2.postId == postId && d.2.userId == userId

def toggleLike (s : Store) (postId : DocId) (userId userName : String) :
    Bool × Store :=
  match s.likes.find? (likeForPair postId userId) with
  | none =>
    let likeDoc : LikeDoc :=
      { postId := postId, userId := userId, userName := userName, createdAt := s.time }
    let s1 := { s with likes := s.likes ++ [(s.nextId, likeDoc)],
                       nextId := s.nextId + 1, time := s.time + 1 }
    (true, setPostLikesCount s1 postId (fun c => c + 1))
  | some likeEntry =>
    let s1 := { s with likes := deleteDocL s.likes likeEntry.1 }
    (false, setPostLikesCount s1 postId (fun c => max 0 (c - 1)))

/-
Groups CRUD (`createGroup`): validate, write the group with
`memberCount: 1` and `isPrivate: groupData.isPrivate || false`, including
`imageData` only when present, then auto-enroll the creator as an admin
member.
-/

def createGroup (s : Store) (groupData : GroupInput) : Except String DocId × Store :=
  let errors := validateGroup groupData.fields
  if errors.length > 0 then
    (Except.error (String.intercalate ", " errors), s)
  else
    let docData : GroupDoc :=
      { name := groupData.name, description := groupData.description,
        createdBy := groupData.createdBy, creatorName := groupData.creatorName,
        memberCount := 1, isPrivate := (groupData.isPrivate || false),
        imageData := groupData.imageData, createdAt := s.time, updatedAt := s.time }
    let groupId := s.nextId
    let s1 := { s with groups := s.groups ++ [(groupId, docData)],
                       nextId := s.nextId + 1, time := s.time + 1 }
    let memberDoc : GroupMemberDoc :=
      { groupId := groupId, userId := groupData.createdBy,
        userName := groupData.creatorName, role := MemberRole.admin,
        joinedAt := s1.time }
    let s2 := { s1 with groupMembers := s1.groupMembers ++ [(s1.nextId, memberDoc)],
                        nextId := s1.nextId + 1, time := s1.time + 1 }
    (Except.ok groupId, s2)

/-
Events CRUD (`createEvent`): validate, write the event with
`currentParticipants: 1` and `isPublic: eventData.isPublic || true` (the
source's exact expression: since `false || true` is `true`, the stored
flag is `true` regardless of the input), including `groupId`, `location`
and `maxParticipants` only when present, then auto-enroll the creator as a
`going` participant.
-/

def createEvent (s : Store) (eventData : EventInput) : Except String DocId × Store :=
  let errors := validateEvent eventData.fields
  if errors.length > 0 then
    (Except.error (String.intercalate ", " errors), s)
  else
    let docData : EventDoc :=
      { title := eventData.title, description := eventData.description,
        createdBy := eventData.createdBy, creatorName := eventData.creatorName,
        groupId := eventData.groupId,
        startDate := eventData.startDate, endDate := eventData.endDate,
        location := eventData.location, maxParticipants := eventData.maxParticipants,
        currentParticipants := 1, isPublic := (eventData.isPublic || true),
        createdAt := s.time, updatedAt := s.time }
    let eventId := s.nextId
    let s1 := { s with events := s.events ++ [(eventId, docData)],
                       nextId := s.nextId + 1, time := s.time + 1 }
    let participantDoc : EventParticipantDoc :=
      { eventId := eventId, userId := eventData.createdBy,
        userName := eventData.creatorName, status := ParticipantStatus.going,
        joinedAt := s1.time }
    let s2 := { s1 with eventParticipants := s1.eventParticipants ++ [(s1.nextId, participantDoc)],
                        nextId := s1.nextId + 1, time := s1.time + 1 }
    (Except.ok eventId, s2)

/-
Raw write payloads.  Firestore rejects `undefined` field values, so the
create operations build their `documentData` object field by field and add
each optional field only under an `!== undefined` guard.  These builders
reproduce that object construction literally (key insertion order), with
an explicit `null` constructor available so that "never writes a literal
null" is a non-vacuous statement.
-/

inductive FsValue where
  | str (s : String)
  | int (n : Int)
  | bool (b : Bool)
  | idRef (i : DocId)
  | serverTimestamp
  | null
  deriving Repr, DecidableEq

def postDocumentData (postData : PostInput) : List (String × FsValue) :=
  let base := [("userId", FsValue.str postData.userId),
               ("userName", FsValue.str postData.userName),
               ("title", FsValue.str postData.title),
               ("content", FsValue.str postData.content),
               ("likesCount", FsValue.int 0),
               ("commentsCount", FsValue.int 0),
               ("createdAt", FsValue.serverTimestamp),
               ("updatedAt", FsValue.serverTimestamp)]
  let base :=
    match postData.userAvatar with
    | some a => base ++ [("userAvatar", FsValue.str a)]
    | none => base
  match postData.imageData with
  | some d => base ++ [("imageData", FsValue.str d)]
  | none => base

def commentDocumentData (commentData : CommentInput) : List (String × FsValue) :=
  let base := [("postId", FsValue.idRef commentData.postId),
               ("userId", FsValue.str commentData.userId),
               ("userName", FsValue.str commentData.userName),
               ("content", FsValue.str commentData.content),
               ("createdAt", FsValue.serverTimestamp),
               ("updatedAt", FsValue.serverTimestamp)]
  match commentData.userAvatar with
  | some a => base ++ [("userAvatar", FsValue.str a)]
  | none => base

def groupDocumentData (groupData : GroupInput) : List (String × FsValue) :=
  let base := [("name", FsValue.str groupData.name),
               ("description", FsValue.str groupData.description),
               ("createdBy", FsValue.str groupData.createdBy),
               ("creatorName", FsValue.str groupData.creatorName),
               ("memberCount", FsValue.int 1),
               ("isPrivate", FsValue.bool (groupData.isPrivate || false)),
               ("createdAt", FsValue.serverTimestamp),
               ("updatedAt", FsValue.serverTimestamp)]
  match groupData.imageData with
  | some d => base ++ [("imageData", FsValue.str d)]
  | none => base

def eventDocumentData (eventData : EventInput) : List (String × FsValue) :=
  let base := [("title", FsValue.str eventData.title),
               ("description", FsValue.str eventData.description),
               ("createdBy", FsValue.str eventData.createdBy),
               ("creatorName", FsValue.str eventData.creatorName),
               ("startDate", FsValue.int eventData.startDate),
               ("endDate", FsValue.int eventData.endDate),
               ("currentParticipants", FsValue.int 1),
               ("isPublic", FsValue.bool (eventData.isPublic || true)),
               ("createdAt", FsValue.serverTimestamp),
               ("updatedAt", FsValue.serverTimestamp)]
  let base :=
    match eventData.groupId with
    | some g => base ++ [("groupId", FsValue.idRef g)]
    | none => base
  let base :=
    match eventData.location with
    | some l => base ++ [("location", FsValue.str l)]
    | none => base
  match eventData.maxParticipants with
  | some m => base ++ [("maxParticipants", FsValue.int m)]
  | none => base

/-
Uniqueness invariant for likes: no two stored Like records agree on both
`postId` and `userId` (the data model's "at most one Like per
(post, user) pair").
-/

def samePair (a b : DocId × LikeDoc) : Prop :=
  a.2.postId = b.2.postId ∧ a.2.userId = b.2.userId

def LikesUnique (s : Store) : Prop :=
  List.Pairwise (fun a b => ¬ samePair a b) s.likes

/-
Concrete fixtures used by counterexamples and witnesses.
-/

def emptyStore : Store :=
  { nextId := 0, time := 0, userProfiles := [], posts := [], comments := [],
    likes := [], groups := [], groupMembers := [], events := [],
    eventParticipants := [] }

def samplePost : PostDoc :=
  { userId := "u1", userName := "User One", userAvatar := none,
    title := "Hello World", content := "This is my first post!",
    imageData := none, likesCount := 5, commentsCount := 0,
    createdAt := 0, updatedAt := 0 }

def sampleLike : LikeDoc :=
  { postId := 0, userId := "u2", userName := "User Two", createdAt := 1 }

-- A store in which post 0 exists and user u2 already likes it.
def likedStore : Store :=
  { emptyStore with nextId := 2, time := 2,
                    posts := [(0, samplePost)], likes := [(1, sampleLike)] }

-- A store in which post 0 exists and nobody has liked or commented on it.
def freshPostStore : Store :=
  { emptyStore with nextId := 1, time := 1, posts := [(0, samplePost)] }

-- A store with a single orphaned comment (its parent post is absent).
def orphanComment : CommentDoc :=
  { postId := 7, userId := "u1", userName := "User One", userAvatar := none,
    content := "Nice!", createdAt := 0, updatedAt := 0 }

def orphanStore : Store :=
  { emptyStore with nextId := 4, time := 4, comments := [(3, orphanComment)] }

def sampleCommentInput : CommentInput :=
  { postId := 7, userId := "u2", userName := "User Two", userAvatar := none,
    content := "Nice!" }

def sampleEventInput : EventInput :=
  { title := "Meetup Night", description := "An evening gathering for everyone",
    createdBy := "u1", creatorName := "User One", groupId := none,
    startDate := 100, endDate := 200, location := none,
    maxParticipants := none, isPublic := false }

def badProfileInput : UserProfileInput :=
  { uid := "u1", displayName := "A", email := "a@example.com", bio := none,
    profilePicture := none }

def badPostInput : PostInput :=
  { userId := "u1", userName := "User One", userAvatar := none,
    title := "ab", content := "short", imageData := none }

def badCommentInput : CommentInput :=
  { postId := 0, userId := "u1", userName := "User One", userAvatar := none,
    content := "" }

def badGroupInput : GroupInput :=
  { name := "AB", description := "A club for readers", createdBy := "u1",
    creatorName := "User One", isPrivate := false, imageData := none }

def badEventInput : EventInput :=
  { title := "ab", description := "An evening gathering", createdBy := "u1",
    creatorName := "User One", groupId := none, startDate := 200,
    endDate := 100, location := none, maxParticipants := none,
    isPublic := true }

/-
Helper lemmas about the store primitives.
-/

theorem findDoc_updateDocL_self {α : Type} (l : List (DocId × α)) (i : DocId) (f : α → α) :
    findDoc (updateDocL l i f) i = (findDoc l i).map f := by
  induction l with
  | nil => rfl
  | cons d t ih =>
    by_cases h : d.1 = i
    · simp [updateDocL, findDoc, List.find?_cons, h]
    · have hb : (d.1 == i) = false := beq_eq_false_iff_ne.mpr h
      simp only [updateDocL, List.map_cons, hb, if_neg, Bool.false_eq_true, ite_false,
        findDoc, List.find?_cons] at ih ⊢
      exact ih

theorem findDoc_deleteDocL_self {α : Type} (l : List (DocId × α)) (i : DocId) :
    findDoc (deleteDocL l i) i = none := by
  have hnone : (deleteDocL l i).find? (fun d => d.1 == i) = none := by
    rw [List.find?_eq_none]
    intro x hx
    have hm := (List.mem_filter.mp hx).2
    simp only [deleteDocL] at hm ⊢
    simp only [Bool.not_eq_eq_eq_not, Bool.not_true] at hm
    simp [hm]
  simp [findDoc, hnone]

theorem find?_likes_append_none {l : List (DocId × LikeDoc)} {pid : DocId} {u : String}
    (h : l.find? (likeForPair pid u) = none) (n : DocId) (a : LikeDoc)
    (ha : likeForPair pid u (n, a) = true) :
    (l ++ [(n, a)]).find? (likeForPair pid u) = some (n, a) := by
  rw [List.find?_append, h]
  simp [List.find?_cons, ha]

theorem setPostLikesCount_likes (s : Store) (pid : DocId) (v : Int → Int) :
    (setPostLikesCount s pid v).likes = s.likes := by
  unfold setPostLikesCount
  cases findDoc s.posts pid <;> rfl

theorem findDoc_setPostLikesCount (s : Store) (pid : DocId) (v : Int → Int) :
    findDoc (setPostLikesCount s pid v).posts pid
      = (findDoc s.posts pid).map (fun p => { p with likesCount := v p.likesCount }) := by
  unfold setPostLikesCount
  cases h : findDoc s.posts pid with
  | none => simp [h]
  | some p => simp [findDoc_updateDocL_self, h]

theorem setPostCommentsCount_comments (s : Store) (pid : DocId) (v : Int → Int) :
    (setPostCommentsCount s pid v).comments = s.comments := by
  unfold setPostCommentsCount
  cases findDoc s.posts pid <;> rfl

theorem findDoc_setPostCommentsCount (s : Store) (pid : DocId) (v : Int → Int) :
    findDoc (setPostCommentsCount s pid v).posts pid
      = (findDoc s.posts pid).map (fun p => { p with commentsCount := v p.commentsCount }) := by
  unfold setPostCommentsCount
  cases h : findDoc s.posts pid with
  | none => simp [h]
  | some p => simp [findDoc_updateDocL_self, h]

theorem setPostCommentsCount_of_none (s : Store) (pid : DocId) (v : Int → Int)
    (h : findDoc s.posts pid = none) : setPostCommentsCount s pid v = s := by
  unfold setPostCommentsCount
  rw [h]

theorem toggleLike_of_none (s : Store) (pid : DocId) (u name : String)
    (h : s.likes.find? (likeForPair pid u) = none) :
    toggleLike s pid u name =
      (true, setPostLikesCount
        { s with likes := s.likes ++ [(s.nextId,
            { postId := pid, userId := u, userName := name, createdAt := s.time })],
                 nextId := s.nextId + 1, time := s.time + 1 }
        pid (fun c => c + 1)) := by
  unfold toggleLike
  rw [h]

theorem toggleLike_of_some (s : Store) (pid : DocId) (u name : String)
    (e : DocId × LikeDoc) (h : s.likes.find? (likeForPair pid u) = some e) :
    toggleLike s pid u name =
      (false, setPostLikesCount { s with likes := deleteDocL s.likes e.1 }
        pid (fun c => max 0 (c - 1))) := by
  unfold toggleLike
  rw [h]

theorem dropWhile_all_a (l : List Char) (h : ∀ c ∈ l, c = 'a') :
    l.dropWhile isJsWhitespace = l := by
  cases l with
  | nil => rfl
  | cons c t =>
    have hc : c = 'a' := h c (by simp)
    subst hc
    rw [List.dropWhile_cons]
    have hws : isJsWhitespace 'a' = false := rfl
    simp [hws]

theorem jsTrim_replicate_a (n : Nat) :
    jsTrim (String.mk (List.replicate n 'a')) = String.mk (List.replicate n 'a') := by
  unfold jsTrim
  rw [show (String.mk (List.replicate n 'a')).toList = List.replicate n 'a' from rfl]
  rw [dropWhile_all_a _ (fun c hc => List.eq_of_mem_replicate hc)]
  rw [dropWhile_all_a _ (fun c hc => List.eq_of_mem_replicate (List.mem_reverse.mp hc))]
  rw [List.reverse_reverse]

theorem jsTrim_replicate_a_ne_empty (n : Nat) (hn : 0 < n) :
    jsTrim (String.mk (List.replicate n 'a')) ≠ "" := by
  rw [jsTrim_replicate_a]
  intro h
  have hdata : List.replicate n 'a' = [] := congrArg String.data h
  have hlen : (List.replicate n 'a').length = 0 := by rw [hdata]; rfl
  rw [List.length_replicate] at hlen
  omega

/-
Claim C3.
-/

/-- Claim C3 counterexample: a title of three spaces has length 3 (inside
the claimed valid range 3–100) and a ten-character content is inside
10–2000, yet `validatePost` is non-empty, because `!title?.trim()` rejects
all-whitespace titles as missing.  The claim as stated is therefore false. -/
theorem validatePost_whitespace_cex :
    ("   ".length = 3 ∧ "aaaaaaaaaa".length = 10) ∧
    validatePost { title := some "   ", content := some "aaaaaaaaaa" } ≠ [] := by
  decide

/-- Claim C3 (amended): payloads whose title (3–100 chars) and content
(10–2000 chars) are not all-whitespace validate cleanly; title length 0
gives "Title is required", length 2 (not all-whitespace) gives
"Title must be at least 3 characters", length 101 (not all-whitespace)
gives "Title must be less than 100 characters", and symmetrically for
content lengths 0, 5 and 2001. -/
theorem validatePost_ranges :
    (∀ t c : String, jsTrim t ≠ "" → 3 ≤ t.length → t.length ≤ 100 →
      jsTrim c ≠ "" → 10 ≤ c.length → c.length ≤ 2000 →
      validatePost { title := some t, content := some c } = []) ∧
    (∀ c : Option String,
      "Title is required" ∈ validatePost { title := some "", content := c }) ∧
    (∀ (t : String) (c : Option String), t.length = 2 → jsTrim t ≠ "" →
      "Title must be at least 3 characters" ∈ validatePost { title := some t, content := c }) ∧
    (∀ (t : String) (c : Option String), t.length = 101 → jsTrim t ≠ "" →
      "Title must be less than 100 characters" ∈ validatePost { title := some t, content := c }) ∧
    (∀ t : Option String,
      "Content is required" ∈ validatePost { title := t, content := some "" }) ∧
    (∀ (t : Option String) (c : String), c.length = 5 → jsTrim c ≠ "" →
      "Content must be at least 10 characters" ∈ validatePost { title := t, content := some c }) ∧
    (∀ (t : Option String) (c : String), c.length = 2001 → jsTrim c ≠ "" →
      "Content must be less than 2000 characters" ∈ validatePost { title := t, content := some c }) := by
  refine ⟨?_, ?_, ?_, ?_, ?_, ?_, ?_⟩
  · intro t c ht1 ht2 ht3 hc1 hc2 hc3
    simp only [validatePost]
    rw [if_neg ht1, if_neg (by omega), if_neg (by omega),
        if_neg hc1, if_neg (by omega), if_neg (by omega)]
    rfl
  · intro c
    simp only [validatePost]
    refine List.mem_append_left _ ?_
    rw [if_pos (show jsTrim "" = "" from rfl)]
    simp
  · intro t c hlen htrim
    simp only [validatePost]
    refine List.mem_append_left _ ?_
    rw [if_neg htrim, if_pos (by omega)]
    simp
  · intro t c hlen htrim
    simp only [validatePost]
    refine List.mem_append_left _ ?_
    rw [if_neg htrim, if_neg (by omega), if_pos (by omega)]
    simp
  · intro t
    simp only [validatePost]
    refine List.mem_append_right _ ?_
    rw [if_pos (show jsTrim "" = "" from rfl)]
    simp
  · intro t c hlen htrim
    simp only [validatePost]
    refine List.mem_append_right _ ?_
    rw [if_neg htrim, if_pos (by omega)]
    simp
  · intro t c hlen htrim
    simp only [validatePost]
    refine List.mem_append_right _ ?_
    rw [if_neg htrim, if_neg (by omega), if_pos (by omega)]
    simp

/-- Witness for `validatePost_ranges`, instantiating every conjunct at
concrete payloads. -/
theorem validatePost_ranges_witness :
    validatePost { title := some "abc", content := some "0123456789" } = [] ∧
    "Title is required" ∈ validatePost { title := some "", content := some "0123456789" } ∧
    "Title must be at least 3 characters"
      ∈ validatePost { title := some "ab", content := some "0123456789" } ∧
    "Title must be less than 100 characters"
      ∈ validatePost { title := some (String.mk (List.replicate 101 'a')),
                       content := some "0123456789" } ∧
    "Content is required" ∈ validatePost { title := some "abc", content := some "" } ∧
    "Content must be at least 10 characters"
      ∈ validatePost { title := some "abc", content := some "hello" } ∧
    "Content must be less than 2000 characters"
      ∈ validatePost { title := some "abc",
                       content := some (String.mk (List.replicate 2001 'a')) } :=
  ⟨validatePost_ranges.1 "abc" "0123456789" (by decide) (by decide) (by decide)
      (by decide) (by decide) (by decide),
   validatePost_ranges.2.1 (some "0123456789"),
   validatePost_ranges.2.2.1 "ab" (some "0123456789") (by decide) (by decide),
   validatePost_ranges.2.2.2.1 (String.mk (List.replicate 101 'a')) (some "0123456789")
      (List.length_replicate 101 'a') (jsTrim_replicate_a_ne_empty 101 (by omega)),
   validatePost_ranges.2.2.2.2.1 (some "abc"),
   validatePost_ranges.2.2.2.2.2.1 (some "abc") "hello" (by decide) (by decide),
   validatePost_ranges.2.2.2.2.2.2 (some "abc") (String.mk (List.replicate 2001 'a'))
      (List.length_replicate 2001 'a') (jsTrim_replicate_a_ne_empty 2001 (by omega))⟩

/-
Claim C4.
-/

/-- Claim C4: every create operation validates first; on a payload whose
validator returns a non-empty error sequence it fails with the joined
error messages and leaves the store exactly as it was (no document is
created and no counter is modified). -/
theorem create_validates_first :
    (∀ (s : Store) (p : UserProfileInput), validateUserProfile p.fields ≠ [] →
      createUserProfile s p
        = (Except.error (String.intercalate ", " (validateUserProfile p.fields)), s)) ∧
    (∀ (s : Store) (p : PostInput), validatePost p.fields ≠ [] →
      createPost s p
        = (Except.error (String.intercalate ", " (validatePost p.fields)), s)) ∧
    (∀ (s : Store) (c : CommentInput), validateComment c.fields ≠ [] →
      createComment s c
        = (Except.error (String.intercalate ", " (validateComment c.fields)), s)) ∧
    (∀ (s : Store) (g : GroupInput), validateGroup g.fields ≠ [] →
      createGroup s g
        = (Except.error (String.intercalate ", " (validateGroup g.fields)), s)) ∧
    (∀ (s : Store) (e : EventInput), validateEvent e.fields ≠ [] →
      createEvent s e
        = (Except.error (String.intercalate ", " (validateEvent e.fields)), s)) := by
  refine ⟨?_, ?_, ?_, ?_, ?_⟩
  · intro s p h
    simp only [createUserProfile]
    rw [if_pos (List.length_pos.mpr h)]
  · intro s p h
    simp only [createPost]
    rw [if_pos (List.length_pos.mpr h)]
  · intro s c h
    simp only [createComment]
    rw [if_pos (List.length_pos.mpr h)]
  · intro s g h
    simp only [createGroup]
    rw [if_pos (List.length_pos.mpr h)]
  · intro s e h
    simp only [createEvent]
    rw [if_pos (List.length_pos.mpr h)]

/-- Witness for `create_validates_first`: concrete invalid payloads for
all five create operations, applied to the empty store. -/
theorem create_validates_first_witness :
    validateUserProfile badProfileInput.fields ≠ [] ∧
    createUserProfile emptyStore badProfileInput
      = (Except.error (String.intercalate ", " (validateUserProfile badProfileInput.fields)),
         emptyStore) ∧
    createPost emptyStore badPostInput
      = (Except.error (String.intercalate ", " (validatePost badPostInput.fields)),
         emptyStore) ∧
    createComment emptyStore badCommentInput
      = (Except.error (String.intercalate ", " (validateComment badCommentInput.fields)),
         emptyStore) ∧
    createGroup emptyStore badGroupInput
      = (Except.error (String.intercalate ", " (validateGroup badGroupInput.fields)),
         emptyStore) ∧
    createEvent emptyStore badEventInput
      = (Except.error (String.intercalate ", " (validateEvent badEventInput.fields)),
         emptyStore) :=
  ⟨by decide,
   create_validates_first.1 emptyStore badProfileInput (by decide),
   create_validates_first.2.1 emptyStore badPostInput (by decide),
   create_validates_first.2.2.1 emptyStore badCommentInput (by decide),
   create_validates_first.2.2.2.1 emptyStore badGroupInput (by decide),
   create_validates_first.2.2.2.2 emptyStore badEventInput (by decide)⟩

/-
Claim C1.
-/

/-- Claim C1 counterexample: in `likedStore` the user u2 already has a
Like on post 0, so the first of the two `toggleLike` calls takes the
delete branch and returns `false`, not `true`.  The claim's quantification
over every initial Like state is therefore false. -/
theorem toggleLike_twice_cex :
    (toggleLike likedStore 0 "u2" "x").1 = false := by
  decide

/-- Claim C1 (amended): for every post p with a non-negative likesCount
and every user u with no existing Like on p, two sequential `toggleLike`
calls return `true` then `false`, and p's likesCount afterwards equals its
value before the first call. -/
theorem toggleLike_twice_roundtrip (s : Store) (pid : DocId) (u name : String)
    (p : PostDoc) (hpost : findDoc s.posts pid = some p) (hc : 0 ≤ p.likesCount)
    (hfind : s.likes.find? (likeForPair pid u) = none) :
    (toggleLike s pid u name).1 = true ∧
    (toggleLike (toggleLike s pid u name).2 pid u name).1 = false ∧
    (findDoc (toggleLike (toggleLike s pid u name).2 pid u name).2.posts pid).map
        PostDoc.likesCount = some p.likesCount := by
  have h1 := toggleLike_of_none s pid u name hfind
  have hx : findDoc ((toggleLike s pid u name).2).posts pid
      = some { p with likesCount := p.likesCount + 1 } := by
    rw [h1]
    dsimp only
    rw [findDoc_setPostLikesCount]
    dsimp only
    rw [hpost]
    rfl
  have hmid : ((toggleLike s pid u name).2).likes.find? (likeForPair pid u)
      = some (s.nextId, { postId := pid, userId := u, userName := name, createdAt := s.time }) := by
    rw [h1]
    dsimp only
    rw [setPostLikesCount_likes]
    dsimp only
    exact find?_likes_append_none hfind s.nextId _ (by simp [likeForPair])
  have h2 := toggleLike_of_some _ pid u name _ hmid
  refine ⟨by rw [h1], by rw [h2], ?_⟩
  rw [h2]
  dsimp only
  rw [findDoc_setPostLikesCount]
  dsimp only
  rw [hx]
  show some (max 0 (p.likesCount + 1 - 1)) = some p.likesCount
  rw [Int.add_sub_cancel, max_eq_right hc]

/-- Witness for `toggleLike_twice_roundtrip` on a concrete store holding
one post with likesCount 5 and no likes. -/
theorem toggleLike_twice_roundtrip_witness :
    (toggleLike freshPostStore 0 "u9" "User Nine").1 = true ∧
    (toggleLike (toggleLike freshPostStore 0 "u9" "User Nine").2 0 "u9" "User Nine").1 = false ∧
    (findDoc (toggleLike (toggleLike freshPostStore 0 "u9" "User Nine").2 0 "u9" "User Nine").2.posts 0).map
        PostDoc.likesCount = some samplePost.likesCount :=
  toggleLike_twice_roundtrip freshPostStore 0 "u9" "User Nine" samplePost
    (by decide) (by decide) (by decide)

/-
Claim C9.
-/

/-- Claim C9: under sequential execution `toggleLike` preserves the
invariant that at most one Like record exists per (post, user) pair,
because it looks the pair up before inserting. -/
theorem toggleLike_preserves_likesUnique (s : Store) (pid : DocId) (u name : String)
    (h : LikesUnique s) : LikesUnique (toggleLike s pid u name).2 := by
  cases hfind : s.likes.find? (likeForPair pid u) with
  | none =>
    rw [toggleLike_of_none s pid u name hfind]
    unfold LikesUnique
    rw [setPostLikesCount_likes]
    rw [List.pairwise_append]
    refine ⟨h, List.pairwise_singleton _ _, ?_⟩
    intro a ha b hb
    have hb1 : b = (s.nextId, { postId := pid, userId := u, userName := name, createdAt := s.time }) := by
      simpa using hb
    subst hb1
    have hnot := List.find?_eq_none.mp hfind a ha
    simp only [likeForPair, Bool.and_eq_true, beq_iff_eq, not_and] at hnot
    simp only [samePair, not_and]
    intro hp hu
    exact hnot hp hu
  | some e =>
    rw [toggleLike_of_some s pid u name e hfind]
    unfold LikesUnique
    rw [setPostLikesCount_likes]
    exact List.Pairwise.sublist (List.filter_sublist _) h

/-- Witness for `toggleLike_preserves_likesUnique` on a concrete store
satisfying the invariant (a single stored Like). -/
theorem toggleLike_preserves_likesUnique_witness :
    LikesUnique (toggleLike likedStore 0 "u3" "User Three").2 :=
  toggleLike_preserves_likesUnique likedStore 0 "u3" "User Three"
    (by simp [LikesUnique, likedStore, emptyStore])

/-
Claim C5.
-/

/-- Claim C5: `deleteComment` removes the comment document and sets the
parent post's commentsCount from c to max(0, c - 1); in particular a count
of 0 stays 0, and the operation raises no error (it is a total function of
the store). -/
theorem deleteComment_decrements_floored (s : Store) (commentId postId : DocId)
    (p : PostDoc) (hpost : findDoc s.posts postId = some p) :
    findDoc (deleteComment s commentId postId).comments commentId = none ∧
    (findDoc (deleteComment s commentId postId).posts postId).map PostDoc.commentsCount
      = some (max 0 (p.commentsCount - 1)) := by
  constructor
  · show findDoc (setPostCommentsCount _ postId _).comments commentId = none
    rw [setPostCommentsCount_comments]
    dsimp only
    exact findDoc_deleteDocL_self _ _
  · show (findDoc (setPostCommentsCount _ postId _).posts postId).map PostDoc.commentsCount = _
    rw [findDoc_setPostCommentsCount]
    dsimp only
    rw [hpost]
    rfl

/-- Witness for `deleteComment_decrements_floored` on a store whose post
already has commentsCount 0: the count stays 0. -/
theorem deleteComment_decrements_floored_witness :
    samplePost.commentsCount = 0 ∧
    findDoc (deleteComment freshPostStore 9 0).comments 9 = none ∧
    (findDoc (deleteComment freshPostStore 9 0).posts 0).map PostDoc.commentsCount
      = some 0 := by
  have h := deleteComment_decrements_floored freshPostStore 9 0 samplePost (by decide)
  exact ⟨by decide, h.1, by rw [h.2]; decide⟩

/-
Claim C10.
-/

/-- Claim C10: with a valid comment payload whose parent post does not
exist, `createComment` still inserts the comment and returns its fresh id,
leaves the posts collection untouched (no commentsCount update) and raises
no error; symmetrically `deleteComment` with a missing parent deletes the
comment and silently skips the counter decrement. -/
theorem commentOps_skip_missing_parent (s : Store) (c : CommentInput)
    (commentId : DocId) (hpost : findDoc s.posts c.postId = none)
    (hvalid : validateComment c.fields = []) :
    (createComment s c).1 = Except.ok s.nextId ∧
    (createComment s c).2.posts = s.posts ∧
    (s.nextId,
      { postId := c.postId, userId := c.userId, userName := c.userName,
        userAvatar := c.userAvatar, content := c.content,
        createdAt := s.time, updatedAt := s.time : CommentDoc })
      ∈ (createComment s c).2.comments ∧
    (deleteComment s commentId c.postId).posts = s.posts ∧
    findDoc (deleteComment s commentId c.postId).comments commentId = none := by
  have hc : createComment s c =
      (Except.ok s.nextId, setPostCommentsCount
        { s with comments := s.comments ++ [(s.nextId,
            { postId := c.postId, userId := c.userId, userName := c.userName,
              userAvatar := c.userAvatar, content := c.content,
              createdAt := s.time, updatedAt := s.time })],
                 nextId := s.nextId + 1, time := s.time + 1 }
        c.postId (fun n => n + 1)) := by
    simp only [createComment, hvalid]
    rfl
  refine ⟨by rw [hc], ?_, ?_, ?_, ?_⟩
  · rw [hc]
    dsimp only
    rw [setPostCommentsCount_of_none]
    exact hpost
  · rw [hc]
    dsimp only
    rw [setPostCommentsCount_of_none]
    · dsimp only
      exact List.mem_append_right _ (by simp)
    · exact hpost
  · show (setPostCommentsCount _ c.postId _).posts = s.posts
    rw [setPostCommentsCount_of_none]
    exact hpost
  · show findDoc (setPostCommentsCount _ c.postId _).comments commentId = none
    rw [setPostCommentsCount_comments]
    dsimp only
    exact findDoc_deleteDocL_self _ _

/-- Witness for `commentOps_skip_missing_parent` on a store containing a
single orphaned comment and no posts at all. -/
theorem commentOps_skip_missing_parent_witness :
    validateComment sampleCommentInput.fields = [] ∧
    (createComment orphanStore sampleCommentInput).1 = Except.ok orphanStore.nextId ∧
    (createComment orphanStore sampleCommentInput).2.posts = orphanStore.posts ∧
    (deleteComment orphanStore 3 sampleCommentInput.postId).posts = orphanStore.posts ∧
    findDoc (deleteComment orphanStore 3 sampleCommentInput.postId).comments 3 = none := by
  have h := commentOps_skip_missing_parent orphanStore sampleCommentInput 3
    (by decide) (by decide)
  exact ⟨by decide, h.1, h.2.1, h.2.2.2.1, h.2.2.2.2⟩

/-
Claim C6.
-/

/-- Claim C6: `deletePost` deletes every Comment referencing the post,
then every Like referencing it, then the post document itself, in exactly
that order (the emitted delete trace is the matching comments, then the
matching likes, then the post), and afterwards no comment or like with
that postId and no post with that id remains. -/
theorem deletePost_cascade_order (s : Store) (postId : DocId) :
    (deletePost s postId).2 =
      (s.comments.filter (fun d => d.2.postId == postId)).map (fun d => DeleteOp.delComment d.1)
        ++ (s.likes.filter (fun d => d.2.postId == postId)).map (fun d => DeleteOp.delLike d.1)
        ++ [DeleteOp.delPost postId] ∧
    (deletePost s postId).1.comments = s.comments.filter (fun d => !(d.2.postId == postId)) ∧
    (deletePost s postId).1.likes = s.likes.filter (fun d => !(d.2.postId == postId)) ∧
    (deletePost s postId).1.posts = deleteDocL s.posts postId ∧
    findDoc (deletePost s postId).1.posts postId = none ∧
    (deletePost s postId).1.comments.filter (fun d => d.2.postId == postId) = [] ∧
    (deletePost s postId).1.likes.filter (fun d => d.2.postId == postId) = [] := by
  refine ⟨rfl, rfl, rfl, rfl, findDoc_deleteDocL_self _ _, ?_, ?_⟩
  · rw [show (deletePost s postId).1.comments
        = s.comments.filter (fun d => !(d.2.postId == postId)) from rfl]
    rw [List.filter_eq_nil_iff]
    intro a ha
    have hm := (List.mem_filter.mp ha).2
    simp only [Bool.not_eq_eq_eq_not, Bool.not_true] at hm
    simp [hm]
  · rw [show (deletePost s postId).1.likes
        = s.likes.filter (fun d => !(d.2.postId == postId)) from rfl]
    rw [List.filter_eq_nil_iff]
    intro a ha
    have hm := (List.mem_filter.mp ha).2
    simp only [Bool.not_eq_eq_eq_not, Bool.not_true] at hm
    simp [hm]

/-
Claim C8.
-/

/-- Claim C8: `getComments` returns exactly the comments whose postId
matches (a permutation of the mapped filter of the store, obtained with no
store-side ordering), sorted ascending by creation time, and the snapshot
delivered by `subscribeToComments` for the same store state is that same
list. -/
theorem getComments_sorted_client_side (s : Store) (postId : DocId) :
    (getComments s postId).Perm
      ((s.comments.filter (fun d => d.2.postId == postId)).map
        (fun d => commentFromDoc d.1 d.2)) ∧
    List.Sorted commentOrder (getComments s postId) ∧
    subscribeToCommentsSnapshot s postId = getComments s postId := by
  refine ⟨List.perm_insertionSort commentOrder _, List.sorted_insertionSort commentOrder _, rfl⟩

/-
Claim C7.
-/

/-- Claim C7: the write payloads built by createPost, createComment,
createGroup and createEvent never contain a literal null value, and every
optional field is present in the payload exactly when it is present in the
input — an absent optional field is omitted entirely. -/
theorem create_omits_absent_optionals (p : PostInput) (c : CommentInput)
    (g : GroupInput) (e : EventInput) :
    (postDocumentData p).all (fun kv => kv.2 != FsValue.null) = true ∧
    ("userAvatar" ∈ (postDocumentData p).map Prod.fst ↔ p.userAvatar ≠ none) ∧
    ("imageData" ∈ (postDocumentData p).map Prod.fst ↔ p.imageData ≠ none) ∧
    (commentDocumentData c).all (fun kv => kv.2 != FsValue.null) = true ∧
    ("userAvatar" ∈ (commentDocumentData c).map Prod.fst ↔ c.userAvatar ≠ none) ∧
    (groupDocumentData g).all (fun kv => kv.2 != FsValue.null) = true ∧
    ("imageData" ∈ (groupDocumentData g).map Prod.fst ↔ g.imageData ≠ none) ∧
    (eventDocumentData e).all (fun kv => kv.2 != FsValue.null) = true ∧
    ("groupId" ∈ (eventDocumentData e).map Prod.fst ↔ e.groupId ≠ none) ∧
    ("location" ∈ (eventDocumentData e).map Prod.fst ↔ e.location ≠ none) ∧
    ("maxParticipants" ∈ (eventDocumentData e).map Prod.fst ↔ e.maxParticipants ≠ none) := by
  refine ⟨?_, ?_, ?_, ?_, ?_, ?_, ?_, ?_, ?_, ?_, ?_⟩
  · cases hA : p.userAvatar <;> cases hI : p.imageData <;> simp [postDocumentData, hA, hI]
  · cases hA : p.userAvatar <;> cases hI : p.imageData <;> simp [postDocumentData, hA, hI]
  · cases hA : p.userAvatar <;> cases hI : p.imageData <;> simp [postDocumentData, hA, hI]
  · cases hA : c.userAvatar <;> simp [commentDocumentData, hA]
  · cases hA : c.userAvatar <;> simp [commentDocumentData, hA]
  · cases hI : g.imageData <;> simp [groupDocumentData, hI]
  · cases hI : g.imageData <;> simp [groupDocumentData, hI]
  · cases hG : e.groupId <;> cases hL : e.location <;> cases hM : e.maxParticipants <;>
      simp [eventDocumentData, hG, hL, hM]
  · cases hG : e.groupId <;> cases hL : e.location <;> cases hM : e.maxParticipants <;>
      simp [eventDocumentData, hG, hL, hM]
  · cases hG : e.groupId <;> cases hL : e.location <;> cases hM : e.maxParticipants <;>
      simp [eventDocumentData, hG, hL, hM]
  · cases hG : e.groupId <;> cases hL : e.location <;> cases hM : e.maxParticipants <;>
      simp [eventDocumentData, hG, hL, hM]

/-
Claim C2.
-/

/-- Claim C2 fails on the code: `createEvent` stores
`isPublic: eventData.isPublic || true`, which evaluates to `true` for
every input (a JavaScript boolean-default slip; the required input field
is ignored).  On a valid payload with `isPublic: false` the created event
reads back with `isPublic: true`, so create-then-get is not the identity
on all required fields; the counter initial values themselves are correct
(`currentParticipants` is stored as 1, and for a post both counters start
at 0). -/
theorem createEvent_forces_isPublic_true :
    sampleEventInput.isPublic = false ∧
    (createEvent emptyStore sampleEventInput).1 = Except.ok 0 ∧
    (findDoc (createEvent emptyStore sampleEventInput).2.events 0).map EventDoc.isPublic
      = some true ∧
    (findDoc (createEvent emptyStore sampleEventInput).2.events 0).map
      EventDoc.currentParticipants = some 1 := by
  refine ⟨rfl, rfl, by decide, by decide⟩

end GlobalChat
